import Mathlib

/-!
Verification of `src/diagrams/openclaw_diagram.py`.

The script builds one diagram with the `diagrams` Python library:
it constructs 15 icon nodes inside a tree of 6 clusters (via nested
`with Cluster(...)` blocks) and then connects them with 13 directed,
styled edges (via the overloaded `>>` / `<<` operators), all inside a
single `with Diagram(...)` block.

We embed the construction shallowly: the diagram-builder state is a
record of the node list, the cluster list, the edge list and the stack
of currently open clusters (the `with`-block context the library keeps).
Each statement of the script becomes one or more `Cmd` values, in the
order the Python statements execute; `step` gives each command the
effect the library gives it:

  * constructing a node appends a node record whose `parent` is the
    innermost open cluster (or `none` at diagram top level);
  * entering `with Cluster(t):` appends a cluster record whose `parent`
    is the innermost open cluster and pushes the new cluster onto the
    context stack; leaving the block pops the stack;
  * `a >> Edge(...) >> b` and the `>>` chains append one edge record per
    connected pair with `forward := true` (rendered `dir=forward`), the
    left operand as graphviz tail and the right operand as head;
    `a << Edge(...) << b` appends one record with `reverse := true`
    (rendered `dir=back`), `a` as tail and `b` as head, so the arrow is
    drawn from `b` to `a`.

Node and cluster handles are indices into the respective lists, assigned
in construction order exactly as the script binds its Python variables.
-/

namespace OpenclawDiagram

/-- A node record: display label, icon class (the `diagrams` class the
script instantiates, e.g. `diagrams.aws.compute.EC2`), and the cluster
that owns it (`none` when the node sits directly under the diagram root,
as `user` does). -/
structure NodeRec where
  label : String
  icon : String
  parent : Option Nat
  deriving Repr, DecidableEq

/-- A cluster record: its title and its parent cluster (`none` for a
top-level cluster such as "AWS Cloud"). -/
structure ClusterRec where
  label : String
  parent : Option Nat
  deriving Repr, DecidableEq

/-- An edge record as the library hands it to graphviz: tail node, head
node, the `forward` / `reverse` direction flags set by `>>` / `<<`, and
the display attributes of the `Edge(...)` object (empty string = attribute
not given). -/
structure EdgeRec where
  tail : Nat
  head : Nat
  forward : Bool
  reverse : Bool
  label : String
  color : String
  style : String
  deriving Repr, DecidableEq

/-- The logical source of an edge: for a `<<`-built edge (`reverse` set,
`forward` not), the arrow is drawn from the head, so the head is the
source; otherwise the tail is. -/
def EdgeRec.src (e : EdgeRec) : Nat :=
  if e.reverse && !e.forward then e.head else e.tail

/-- The logical destination of an edge, dual to `EdgeRec.src`. -/
def EdgeRec.dst (e : EdgeRec) : Nat :=
  if e.reverse && !e.forward then e.tail else e.head

/-- The diagram-builder state: the global attributes passed to
`Diagram(...)`, the accumulated nodes, clusters and edges, and the stack
of open clusters (innermost first). `showOpt` models the `show=False`
keyword argument (`show` is reserved in Lean). -/
structure BuildState where
  title : String
  direction : String
  showOpt : Bool
  graphAttr : List (String × String)
  nodes : List NodeRec
  clusters : List ClusterRec
  edges : List EdgeRec
  ctx : List Nat
  deriving Repr, DecidableEq

/-- The `graph_attr` dictionary of the script. -/
def graph_attr : List (String × String) :=
  [("fontsize", "16"), ("bgcolor", "white"), ("splines", "ortho")]

/-- The state right after `Diagram("OpenClaw Security Architecture",
show=False, direction="TB", graph_attr=graph_attr)` is entered: the
global attributes are set and everything else is empty. -/
def init : BuildState :=
  { title := "OpenClaw Security Architecture"
    direction := "TB"
    showOpt := false
    graphAttr := graph_attr
    nodes := []
    clusters := []
    edges := []
    ctx := [] }

/-- One builder command: a node construction, entering or leaving a
`with Cluster(...)` block, or one node-to-node connection made by a
`>>` / `<<` statement. -/
inductive Cmd where
  | node (label icon : String)
  | openCluster (label : String)
  | closeCluster
  | connect (tail head : Nat) (forward reverse : Bool) (label color style : String)
  deriving Repr, DecidableEq

/-- The effect of one command on the builder state. -/
def step (s : BuildState) : Cmd → BuildState
  | .node label icon =>
      { s with nodes := s.nodes ++ [⟨label, icon, s.ctx.head?⟩] }
  | .openCluster label =>
      { s with clusters := s.clusters ++ [⟨label, s.ctx.head?⟩]
               ctx := s.clusters.length :: s.ctx }
  | .closeCluster =>
      { s with ctx := s.ctx.tail }
  | .connect t h f r la c st =>
      { s with edges := s.edges ++ [⟨t, h, f, r, la, c, st⟩] }

/-- Run a command list left to right. -/
def exec (cmds : List Cmd) (s : BuildState) : BuildState :=
  cmds.foldl step s

/- Node handles, in construction order (line order of the script). -/

def user : Nat := 0
def waf : Nat := 1
def cloudfront : Nat := 2
def dns_fw : Nat := 3
def ec2 : Nat := 4
def docker : Nat := 5
def iam : Nat := 6
def secrets : Nat := 7
def inspector : Nat := 8
def detective : Nat := 9
def cloudwatch : Nat := 10
def ssm : Nat := 11
def eventbridge : Nat := 12
def janitor_lambda : Nat := 13
def extApis : Nat := 14

/- Cluster handles, in construction order. -/

def awsCloud : Nat := 0
def ingressLayer : Nat := 1
def vpc : Nat := 2
def privateSubnet : Nat := 3
def securityMonitoring : Nat := 4
def cloudJanitor : Nat := 5

/-- The declaration part of the script (lines 22-58): the `user` node,
the nested `with Cluster` blocks and the node constructions inside them,
in statement order. -/
def scriptDecls : List Cmd := [
  .node "User" "onprem.client.User",
  .openCluster "AWS Cloud",
  .openCluster "Ingress Layer",
  .node "WAF\nRate Limit + Rules" "aws.security.WAF",
  .node "CloudFront\nHTTPS Only" "aws.network.CloudFront",
  .closeCluster,
  .openCluster "VPC",
  .node "DNS Firewall\nAllowlist Only" "aws.network.Route53",
  .openCluster "Private Subnet",
  .node "EC2\nOpenClaw Gateway" "aws.compute.EC2",
  .node "Docker\nAgent Sandboxes" "onprem.container.Docker",
  .node "IAM Role\nLeast Privilege" "aws.security.IAMRole",
  .node "Secrets Mgr\nAPI Keys" "aws.security.SecretsManager",
  .closeCluster,
  .closeCluster,
  .openCluster "Security Monitoring",
  .node "Inspector\nVuln Scanning" "aws.security.Inspector",
  .node "GuardDuty\nThreat Detection" "aws.security.Detective",
  .node "CloudWatch\nAlarms + Logs" "aws.management.Cloudwatch",
  .closeCluster,
  .openCluster "Cloud Janitor",
  .node "SSM\nPatch Manager" "aws.management.SystemsManager",
  .node "EventBridge\nScheduler" "aws.integration.Eventbridge",
  .node "Lambda\nCleanup Tasks" "aws.compute.Lambda",
  .closeCluster,
  .node "External APIs\nOpenAI / Anthropic" "programming.language.Python",
  .closeCluster]

/-- The data-flow part of the script (lines 63-80): one `connect` per
node pair, in evaluation order (operator chains evaluate left to right,
so `user >> Edge(label="HTTPS") >> waf >> cloudfront >> ec2` connects
user-waf, then waf-cloudfront, then cloudfront-ec2). -/
def scriptFlows : List Cmd := [
  .connect user waf true false "HTTPS" "" "",
  .connect waf cloudfront true false "" "" "",
  .connect cloudfront ec2 true false "" "" "",
  .connect ec2 docker true false "spawn" "" "",
  .connect ec2 iam true false "" "" "dotted",
  .connect ec2 secrets false true "" "darkgreen" "",
  .connect docker dns_fw true false "" "" "",
  .connect dns_fw extApis true false "" "" "",
  .connect ec2 inspector true false "" "gray" "dashed",
  .connect ec2 detective true false "" "gray" "dashed",
  .connect ec2 cloudwatch true false "" "gray" "dashed",
  .connect eventbridge janitor_lambda true false "" "" "",
  .connect ssm ec2 true false "" "" ""]

/-- The whole script body, in statement order. -/
def script : List Cmd := scriptDecls ++ scriptFlows

/-- The diagram description at the end of the `with Diagram(...)` block,
just before the library renders it. -/
def built : BuildState := exec script init

/-- The effect of one builder command, as a relation: `StepR s c s'`
holds exactly when running `c` in state `s` yields `s'`. -/
inductive StepR : BuildState → Cmd → BuildState → Prop where
  | node (s : BuildState) (label icon : String) :
      StepR s (.node label icon)
        { s with nodes := s.nodes ++ [⟨label, icon, s.ctx.head?⟩] }
  | openCluster (s : BuildState) (label : String) :
      StepR s (.openCluster label)
        { s with clusters := s.clusters ++ [⟨label, s.ctx.head?⟩]
                 ctx := s.clusters.length :: s.ctx }
  | closeCluster (s : BuildState) :
      StepR s .closeCluster { s with ctx := s.ctx.tail }
  | connect (s : BuildState) (t h : Nat) (f r : Bool) (la c st : String) :
      StepR s (.connect t h f r la c st)
        { s with edges := s.edges ++ [⟨t, h, f, r, la, c, st⟩] }

/-- Running a command list, as a relation. -/
inductive ExecR : BuildState → List Cmd → BuildState → Prop where
  | nil (s : BuildState) : ExecR s [] s
  | cons {s s' s'' : BuildState} {c : Cmd} {cmds : List Cmd} :
      StepR s c s' → ExecR s' cmds s'' → ExecR s (c :: cmds) s''

theorem stepR_step (s : BuildState) (c : Cmd) : StepR s c (step s c) := by
  cases c with
  | node label icon => exact .node s label icon
  | openCluster label => exact .openCluster s label
  | closeCluster => exact .closeCluster s
  | connect t h f r la c st => exact .connect s t h f r la c st

theorem stepR_det {s : BuildState} {c : Cmd} {s₁ s₂ : BuildState}
    (h₁ : StepR s c s₁) (h₂ : StepR s c s₂) : s₁ = s₂ := by
  cases h₁ <;> cases h₂ <;> rfl

theorem execR_exec : ∀ (cmds : List Cmd) (s : BuildState), ExecR s cmds (exec cmds s)
  | [], s => .nil s
  | c :: cmds, s => .cons (stepR_step s c) (execR_exec cmds (step s c))

theorem execR_det {s : BuildState} {cmds : List Cmd} {s₁ s₂ : BuildState}
    (h₁ : ExecR s cmds s₁) (h₂ : ExecR s cmds s₂) : s₁ = s₂ := by
  induction h₁ generalizing s₂ with
  | nil s => cases h₂; rfl
  | cons hstep _ ih =>
      cases h₂ with
      | cons hstep₂ hrest₂ =>
          have heq := stepR_det hstep hstep₂
          subst heq
          exact ih hrest₂

/-- C1: every edge constructed in the diagram references two nodes
constructed in the same diagram: the final edge list has 13 edges, and
for each of them the tail, head, logical source and logical destination
are all indices of node constructions of the script. -/
theorem edges_reference_existing_nodes :
    built.edges.length = 13 ∧
    ∀ e ∈ built.edges,
      e.tail < built.nodes.length ∧ e.head < built.nodes.length ∧
      e.src < built.nodes.length ∧ e.dst < built.nodes.length := by
  constructor
  · decide
  · decide

/-- Witness for C1 at the first edge of the diagram, `user >> waf`. -/
theorem edges_reference_existing_nodes_witness :
    (⟨0, 1, true, false, "HTTPS", "", ""⟩ : EdgeRec) ∈ built.edges ∧
    ((⟨0, 1, true, false, "HTTPS", "", ""⟩ : EdgeRec).tail < built.nodes.length ∧
     (⟨0, 1, true, false, "HTTPS", "", ""⟩ : EdgeRec).head < built.nodes.length ∧
     (⟨0, 1, true, false, "HTTPS", "", ""⟩ : EdgeRec).src < built.nodes.length ∧
     (⟨0, 1, true, false, "HTTPS", "", ""⟩ : EdgeRec).dst < built.nodes.length) :=
  ⟨by decide,
   edges_reference_existing_nodes.2 ⟨0, 1, true, false, "HTTPS", "", ""⟩ (by decide)⟩

/-- C2: the cluster containment built by the script is a tree. Each
cluster record carries a single optional parent (so no cluster has two
parents), every parent index precedes the child's index (so nesting has
no cycles), and the concrete containment is: AWS Cloud is top level and
contains Ingress Layer, VPC, Security Monitoring and Cloud Janitor, and
VPC contains Private Subnet; likewise every node has a single optional
cluster parent. -/
theorem cluster_nesting_is_tree :
    (∀ i r, built.clusters.get? i = some r →
      ∀ p, r.parent = some p → p < i) ∧
    built.clusters =
      [⟨"AWS Cloud", none⟩,
       ⟨"Ingress Layer", some awsCloud⟩,
       ⟨"VPC", some awsCloud⟩,
       ⟨"Private Subnet", some vpc⟩,
       ⟨"Security Monitoring", some awsCloud⟩,
       ⟨"Cloud Janitor", some awsCloud⟩] ∧
    built.nodes.map NodeRec.parent =
      [none, some ingressLayer, some ingressLayer, some vpc,
       some privateSubnet, some privateSubnet, some privateSubnet, some privateSubnet,
       some securityMonitoring, some securityMonitoring, some securityMonitoring,
       some cloudJanitor, some cloudJanitor, some cloudJanitor, some awsCloud] := by
  have hcl : built.clusters =
      [⟨"AWS Cloud", none⟩,
       ⟨"Ingress Layer", some awsCloud⟩,
       ⟨"VPC", some awsCloud⟩,
       ⟨"Private Subnet", some vpc⟩,
       ⟨"Security Monitoring", some awsCloud⟩,
       ⟨"Cloud Janitor", some awsCloud⟩] := by decide
  refine ⟨?_, hcl, by decide⟩
  intro i r h p hp
  rw [hcl] at h
  have hi : i < 6 := by
    by_contra hge
    push_neg at hge
    obtain ⟨n, rfl⟩ : ∃ n, i = n + 6 := ⟨i - 6, by omega⟩
    exact Option.noConfusion h
  interval_cases i
  · injection h with h; subst h; exact Option.noConfusion hp
  · injection h with h; subst h; injection hp with hp; subst hp; decide
  · injection h with h; subst h; injection hp with hp; subst hp; decide
  · injection h with h; subst h; injection hp with hp; subst hp; decide
  · injection h with h; subst h; injection hp with hp; subst hp; decide
  · injection h with h; subst h; injection hp with hp; subst hp; decide

/-- Witness for C2 at the Ingress Layer cluster, whose parent is the
earlier-constructed AWS Cloud cluster. -/
theorem cluster_nesting_is_tree_witness :
    built.clusters.get? 1 = some ⟨"Ingress Layer", some awsCloud⟩ ∧
    (⟨"Ingress Layer", some awsCloud⟩ : ClusterRec).parent = some awsCloud ∧
    awsCloud < 1 :=
  ⟨by decide, by decide,
   cluster_nesting_is_tree.1 1 ⟨"Ingress Layer", some awsCloud⟩ (by decide)
     awsCloud (by decide)⟩

/-- C3: each connection appends exactly one edge record to the edge list
with no uniqueness check (first conjunct, for every state), and the final
edge list holds exactly 13 directed edges whose (source, destination)
pairs, in source order, are user-waf, waf-cloudfront, cloudfront-ec2,
ec2-docker, ec2-iam, secrets-ec2, docker-dns_fw, dns_fw-external APIs,
ec2-inspector, ec2-detective, ec2-cloudwatch, eventbridge-janitor_lambda,
ssm-ec2. -/
theorem edge_list_is_append_only_13 :
    (∀ (s : BuildState) (t h : Nat) (f r : Bool) (la c st : String),
      (step s (.connect t h f r la c st)).edges = s.edges ++ [⟨t, h, f, r, la, c, st⟩]) ∧
    built.edges.length = 13 ∧
    built.edges.map (fun e => (e.src, e.dst)) =
      [(user, waf), (waf, cloudfront), (cloudfront, ec2),
       (ec2, docker), (ec2, iam), (secrets, ec2),
       (docker, dns_fw), (dns_fw, extApis),
       (ec2, inspector), (ec2, detective), (ec2, cloudwatch),
       (eventbridge, janitor_lambda), (ssm, ec2)] :=
  ⟨fun _ _ _ _ _ _ _ _ => rfl, by decide, by decide⟩

/-- C4: the root diagram carries the global render attributes: the title
"OpenClaw Security Architecture", layout direction "TB", font size 16,
white background and orthogonal splines. -/
theorem diagram_global_attributes :
    built.title = "OpenClaw Security Architecture" ∧
    built.direction = "TB" ∧
    built.graphAttr.lookup "fontsize" = some "16" ∧
    built.graphAttr.lookup "bgcolor" = some "white" ∧
    built.graphAttr.lookup "splines" = some "ortho" := by
  refine ⟨rfl, rfl, ?_, ?_, ?_⟩ <;> decide

/-- C6: building the declarative graph is deterministic: any two
executions of the script's command list from the initial state reach the
same diagram description. -/
theorem build_is_deterministic (s₁ s₂ : BuildState)
    (h₁ : ExecR init script s₁) (h₂ : ExecR init script s₂) : s₁ = s₂ :=
  execR_det h₁ h₂

/-- Witness for C6: the script's execution relation does reach `built`,
and two such runs agree. -/
theorem build_is_deterministic_witness :
    ExecR init script built ∧ built = built :=
  ⟨execR_exec script init,
   build_is_deterministic built built (execR_exec script init) (execR_exec script init)⟩

/-- C7: constructing an edge never changes the containment structure:
for every state, a `connect` command leaves the node list (hence every
node's cluster parent), the cluster list and the open-cluster context
untouched; concretely, the nodes and clusters of the finished diagram
are exactly those already present before the first data-flow statement,
although the 13 edges (several of which cross cluster boundaries) were
added in between. -/
theorem connect_preserves_containment :
    (∀ (s : BuildState) (t h : Nat) (f r : Bool) (la c st : String),
      (step s (.connect t h f r la c st)).nodes = s.nodes ∧
      (step s (.connect t h f r la c st)).clusters = s.clusters ∧
      (step s (.connect t h f r la c st)).ctx = s.ctx) ∧
    built.nodes = (exec scriptDecls init).nodes ∧
    built.clusters = (exec scriptDecls init).clusters :=
  ⟨fun _ _ _ _ _ _ _ _ => ⟨rfl, rfl, rfl⟩, by decide, by decide⟩

/-- C8: every node construction takes a label and an icon class, and
every label passed in the script is non-empty: the diagram has exactly
15 nodes and each has a non-empty label. -/
theorem node_labels_nonempty :
    built.nodes.length = 15 ∧
    ∀ n ∈ built.nodes, n.label ≠ "" := by
  constructor
  · decide
  · decide

/-- Witness for C8 at the User node. -/
theorem node_labels_nonempty_witness :
    (⟨"User", "onprem.client.User", none⟩ : NodeRec) ∈ built.nodes ∧
    (⟨"User", "onprem.client.User", none⟩ : NodeRec).label ≠ "" :=
  ⟨by decide,
   node_labels_nonempty.2 ⟨"User", "onprem.client.User", none⟩ (by decide)⟩

/-- C9: the User node is constructed directly under the diagram root,
outside every cluster, so a node with no cluster parent exists. -/
theorem user_node_has_no_cluster_parent :
    built.nodes.get? user = some ⟨"User", "onprem.client.User", none⟩ ∧
    ∃ n ∈ built.nodes, n.parent = none := by
  refine ⟨by decide, ⟨"User", "onprem.client.User", none⟩, by decide, rfl⟩

/-- C10: the reversed-operator statement `ec2 << Edge(color="darkgreen")
<< secrets` yields the sixth edge record, with graphviz tail ec2, head
secrets, the reverse flag set and the darkgreen color, so its logical
source is secrets and its logical destination is ec2; it is the only
edge between secrets and ec2 in either direction. -/
theorem secrets_edge_direction :
    built.edges.get? 5 = some ⟨ec2, secrets, false, true, "", "darkgreen", ""⟩ ∧
    (built.edges.get? 5).map EdgeRec.src = some secrets ∧
    (built.edges.get? 5).map EdgeRec.dst = some ec2 ∧
    (built.edges.filter (fun e =>
      (e.src == secrets && e.dst == ec2) || (e.src == ec2 && e.dst == secrets))).length
      = 1 := by
  refine ⟨by decide, by decide, by decide, by decide⟩

end OpenclawDiagram
